import Mathlib

/-!
Verification of the record → transcribe → paste pipeline of the
aqua-voice-alternative desktop utility.

The embedding follows the orchestration code of the frontend:
`startRecording` / `stopRecordingAndTranscribe` / `registerShortcut` /
the key-capture listener, together with the settings store
(`loadSettings` / `saveSettings`).  Effectful calls (recorder, the
transcription client, clipboard, the paste automation call, `setTimeout`)
are modelled by an environment of call results plus a trace of emitted
events, so that each theorem can speak about which external calls were
made and in which order status labels were displayed.
-/

namespace AquaVoice

/-- The status enumeration of `updateStatus`. -/
inductive Status where
  | idle
  | recording
  | processing
  | transcribing
  | success
  | error
  deriving DecidableEq, Repr

/-- One recorded audio clip: the blob size in bytes and the base64
payload produced by `blobToBase64`. -/
structure Clip where
  size : Nat
  base64 : String
  deriving DecidableEq, Repr

/-- Observable actions of the pipeline.  `updateStatus` records a status
display change, `deferIdle ms` records a `setTimeout` that will set the
status back to `idle` after `ms` milliseconds, and the other
constructors record the external calls the pipeline makes. -/
inductive Event where
  | updateStatus (s : Status) (msg : Option String)
  | recorderStart
  | recorderStop
  | transcribeCall (apiKey : String) (audioBase64 : String)
  | clipboardWrite (text : String)
  | sleep (ms : Nat)
  | pasteInvoke
  | deferIdle (ms : Nat)
  deriving DecidableEq, Repr

/-- The module-level mutable state the two pipeline entry points touch:
the `isRecording` guard and the configured API key. -/
structure AppState where
  isRecording : Bool
  apiKey : String
  deriving DecidableEq, Repr

/-- Results of the awaited external calls during one recording cycle:
`recorder.start()`, `recorder.stop()`, `transcribeAudio`, `writeText`
and `invoke execute_paste`.  An `Except.error e` value means the
corresponding call throws with message `e`. -/
structure Env where
  startResult : Except String Unit
  stopResult : Except String Clip
  transcribeResult : Except String String
  writeTextResult : Except String Unit
  pasteResult : Except String Unit

/-- Embedding of `startRecording`: a no-op when the `isRecording` guard
is set; otherwise sets the guard, shows `recording` and starts the
recorder, resetting the guard and showing an error when the recorder
fails to start. -/
def startRecording (st : AppState) (env : Env) : AppState × List Event :=
  if st.isRecording then (st, [])
  else
    match env.startResult with
    | Except.ok _ =>
        ({ st with isRecording := true },
         [Event.updateStatus Status.recording none, Event.recorderStart])
    | Except.error _ =>
        ({ st with isRecording := false },
         [Event.updateStatus Status.recording none, Event.recorderStart,
          Event.updateStatus Status.error (some "Failed to start recording")])

/-- Embedding of `stopRecordingAndTranscribe`.  Mirrors the source
statement by statement: guard check, `processing` status, recorder stop,
empty-clip short circuit, `transcribing` status, transcription call,
empty-text check, clipboard write, 100 ms delay, paste invocation,
`success` status, and the deferred 3000 ms reset to `idle`; any throw
lands in the catch block, which clears the guard and shows
`Error: <reason>` followed by the same deferred reset. -/
def stopRecordingAndTranscribe (st : AppState) (env : Env) : AppState × List Event :=
  if st.isRecording = false then (st, [])
  else
    let st1 : AppState := { st with isRecording := false }
    let ev0 : List Event := [Event.updateStatus Status.processing none, Event.recorderStop]
    match env.stopResult with
    | Except.error e =>
        (st1, ev0 ++ [Event.updateStatus Status.error (some ("Error: " ++ e)),
                      Event.deferIdle 3000])
    | Except.ok clip =>
        if clip.size = 0 then
          (st1, ev0 ++ [Event.updateStatus Status.idle none])
        else
          let ev1 := ev0 ++ [Event.updateStatus Status.transcribing none,
                             Event.transcribeCall st.apiKey clip.base64]
          match env.transcribeResult with
          | Except.error e =>
              (st1, ev1 ++ [Event.updateStatus Status.error (some ("Error: " ++ e)),
                            Event.deferIdle 3000])
          | Except.ok text =>
              if text = "" then
                (st1, ev1 ++ [Event.updateStatus Status.idle none, Event.deferIdle 3000])
              else
                match env.writeTextResult with
                | Except.error e =>
                    (st1, ev1 ++ [Event.clipboardWrite text,
                                  Event.updateStatus Status.error (some ("Error: " ++ e)),
                                  Event.deferIdle 3000])
                | Except.ok _ =>
                    match env.pasteResult with
                    | Except.error e =>
                        (st1, ev1 ++ [Event.clipboardWrite text, Event.sleep 100,
                                      Event.pasteInvoke,
                                      Event.updateStatus Status.error (some ("Error: " ++ e)),
                                      Event.deferIdle 3000])
                    | Except.ok _ =>
                        (st1, ev1 ++ [Event.clipboardWrite text, Event.sleep 100,
                                      Event.pasteInvoke,
                                      Event.updateStatus Status.success
                                        (some ("Transcribed: " ++ text.take 50 ++ "...")),
                                      Event.deferIdle 3000])

/-- One full hotkey press/release cycle: the `Pressed` handler runs
`startRecording`, the `Released` handler runs
`stopRecordingAndTranscribe` on the resulting state. -/
def pressReleaseCycle (st : AppState) (env : Env) : AppState × List Event :=
  let r1 := startRecording st env
  let r2 := stopRecordingAndTranscribe r1.1 env
  (r2.1, r1.2 ++ r2.2)

/-- The sequence of status labels displayed along a trace. -/
def statusesOf (tr : List Event) : List Status :=
  tr.filterMap fun e =>
    match e with
    | Event.updateStatus s _ => some s
    | _ => none

/-- The texts written to the system clipboard along a trace. -/
def clipboardWrites (tr : List Event) : List String :=
  tr.filterMap fun e =>
    match e with
    | Event.clipboardWrite t => some t
    | _ => none

/-- How many times the paste automation call is invoked along a trace. -/
def pasteCount (tr : List Event) : Nat :=
  (tr.filter fun e =>
    match e with
    | Event.pasteInvoke => true
    | _ => false).length

/-- How many times the transcription client is invoked along a trace. -/
def transcribeCalls (tr : List Event) : Nat :=
  (tr.filter fun e =>
    match e with
    | Event.transcribeCall _ _ => true
    | _ => false).length

/-- Whether a trace schedules a deferred reset of the status to `idle`. -/
def hasDeferIdle (tr : List Event) : Bool :=
  tr.any fun e =>
    match e with
    | Event.deferIdle _ => true
    | _ => false

/-- The last status displayed by the immediate events of a trace. -/
def lastStatus (init : Status) (tr : List Event) : Status :=
  tr.foldl (fun cur e =>
    match e with
    | Event.updateStatus s _ => s
    | _ => cur) init

/-- The status displayed once every deferred `setTimeout` reset of the
trace has fired: `idle` when such a reset was scheduled, otherwise the
last immediately displayed status. -/
def settledStatus (init : Status) (tr : List Event) : Status :=
  if hasDeferIdle tr then Status.idle else lastStatus init tr

/-! ### Settings store (`settings.ts`)

A runtime settings object is modelled as an association list of string
fields, and `JSON.stringify` / `JSON.parse` of such an object as the
identity on its fields.  The stored file content is either missing,
corrupt (fails to parse) or a parsed object. -/

/-- A runtime settings object: its enumerable string fields in order. -/
abbrev Obj := List (String × String)

/-- The content of `settings.json` as seen by `loadSettings`. -/
inductive FileContent where
  | missing
  | corrupt
  | obj (kvs : Obj)
  deriving DecidableEq, Repr

/-- The `DEFAULT_SETTINGS` constant of `settings.ts`. -/
def DEFAULT_SETTINGS : Obj :=
  [("apiKey", ""), ("shortcut", "CommandOrControl+Shift+Space")]

/-- JavaScript object-spread `{ ...base, ...ext }`: the keys of `base`
in order, each taking the value from `ext` when present, followed by the
keys of `ext` that are absent from `base`, in order. -/
def spreadMerge (base ext : Obj) : Obj :=
  (base.map fun kv => (kv.1, (ext.lookup kv.1).getD kv.2)) ++
    ext.filter fun kv => (base.lookup kv.1).isNone

/-- Embedding of `loadSettings`: read and parse `settings.json`, merge
the parsed fields over `DEFAULT_SETTINGS`; any failure is caught and
yields the defaults alone. -/
def loadSettings (f : FileContent) : Obj :=
  match f with
  | FileContent.obj kvs => spreadMerge DEFAULT_SETTINGS kvs
  | _ => DEFAULT_SETTINGS

/-- Embedding of `saveSettings`: `JSON.stringify` the whole settings
object into `settings.json` (a full replace). -/
def saveSettings (o : Obj) : FileContent := FileContent.obj o

/-! ### Hotkey registrar (`registerShortcut`) -/

/-- The registrar state: the module-level `currentShortcut` variable and
the set of shortcuts the OS currently holds registered for the app. -/
structure HotkeyState where
  currentShortcut : Option String
  bindings : List String
  deriving DecidableEq, Repr

/-- The OS `unregister` call: removes an active binding, and throws when
the descriptor is not currently registered. -/
def unregisterOS (b : List String) (s : String) : Except String (List String) :=
  if s ∈ b then Except.ok (b.erase s) else Except.error "shortcut not registered"

/-- Embedding of `registerShortcut`: when a previous descriptor is
recorded, try to unregister it and swallow any failure; then register
the new descriptor (`registerOk` tells whether the OS accepts it).  On
OS rejection the error is rethrown and `currentShortcut` is left
unchanged. -/
def registerShortcut (st : HotkeyState) (s : String) (registerOk : Bool) :
    HotkeyState × Bool :=
  let b1 :=
    match st.currentShortcut with
    | none => st.bindings
    | some old =>
        match unregisterOS st.bindings old with
        | Except.ok b => b
        | Except.error _ => st.bindings
  if registerOk then ({ currentShortcut := some s, bindings := b1 ++ [s] }, true)
  else ({ currentShortcut := st.currentShortcut, bindings := b1 }, false)

/-! ### Key capture (`handleKeyDown` in `main.ts`) -/

/-- The fields of a DOM `KeyboardEvent` the listener reads. -/
structure KeyEvent where
  metaKey : Bool
  ctrlKey : Bool
  altKey : Bool
  shiftKey : Bool
  key : String
  deriving DecidableEq, Repr

/-- The modifier `key` values the listener ignores as terminators. -/
def modifierKeyNames : List String := ["Control", "Shift", "Alt", "Meta"]

/-- The control-key map of `handleKeyDown`, from DOM `key` values to
canonical token names. -/
def keyMap : List (String × String) :=
  [(" ", "SPACE"), ("ArrowUp", "UP"), ("ArrowDown", "DOWN"), ("ArrowLeft", "LEFT"),
   ("ArrowRight", "RIGHT"), ("Enter", "ENTER"), ("Escape", "ESCAPE"), ("Tab", "TAB"),
   ("Backspace", "BACKSPACE"), ("Delete", "DELETE"), ("Home", "HOME"), ("End", "END"),
   ("PageUp", "PAGEUP"), ("PageDown", "PAGEDOWN")]

/-- The modifier tokens accumulated from one keydown event, in source
order: `CommandOrControl` (meta or ctrl), then `Alt`, then `Shift`. -/
def modifierParts (e : KeyEvent) : List String :=
  (if e.metaKey || e.ctrlKey then ["CommandOrControl"] else []) ++
    (if e.altKey then ["Alt"] else []) ++
      (if e.shiftKey then ["Shift"] else [])

/-- Embedding of one `handleKeyDown` invocation: `none` when the pressed
key is itself a modifier (capture continues), otherwise the produced
descriptor string, with the control-key map applied and other keys
uppercased. -/
def handleKeyDown (e : KeyEvent) : Option String :=
  if modifierKeyNames.contains e.key then none
  else
    some (String.intercalate "+"
      (modifierParts e ++ [(keyMap.lookup e.key).getD e.key.toUpper]))

/-- The one-shot capture listener over a sequence of keydown events:
returns the descriptor produced by the first event that terminates the
capture, removing itself afterwards. -/
def captureShortcut : List KeyEvent → Option String
  | [] => none
  | e :: rest =>
    match handleKeyDown e with
    | some s => some s
    | none => captureShortcut rest


/-! ### Helper lemmas -/

/-- Looking a key up in a defaults-filtered list is the same as looking
it up in the unfiltered list, provided the key is absent from the base
object (so none of the dropped entries can carry it). -/
theorem lookup_filter_fresh (base ext : Obj) (k : String) (hnone : base.lookup k = none) :
    (ext.filter fun kv => (base.lookup kv.1).isNone).lookup k = ext.lookup k := by
  induction ext with
  | nil => rfl
  | cons hd tl ih =>
    by_cases hp : (base.lookup hd.1).isNone = true
    · rcases hd with ⟨k1, v1⟩
      by_cases hkk : k = k1 <;> simp [List.filter_cons, hp, List.lookup, hkk, ih]
    · have hne : (k == hd.1) = false := by
        refine beq_eq_false_iff_ne.mpr fun he => ?_
        rw [← he, hnone] at hp
        exact hp rfl
      simp [List.filter_cons, hp, List.lookup, hne, ih]

/-- A key different from both schema keys is absent from the default
settings object. -/
theorem lookup_defaults_none (k : String) (h1 : k ≠ "apiKey") (h2 : k ≠ "shortcut") :
    DEFAULT_SETTINGS.lookup k = none := by
  have hb1 : (k == "apiKey") = false := beq_eq_false_iff_ne.mpr h1
  have hb2 : (k == "shortcut") = false := beq_eq_false_iff_ne.mpr h2
  simp [DEFAULT_SETTINGS, List.lookup, hb1, hb2]

/-- Field-wise description of `loadSettings` on a parsed object: each
key takes the parsed value when present and the default value
otherwise. -/
theorem lookup_spreadMerge_defaults (kvs : Obj) (k : String) :
    (spreadMerge DEFAULT_SETTINGS kvs).lookup k =
      ((kvs.lookup k).orElse fun _ => DEFAULT_SETTINGS.lookup k) := by
  by_cases h1 : k = "apiKey"
  · subst h1
    simp [spreadMerge, DEFAULT_SETTINGS, List.lookup]
    cases kvs.lookup "apiKey" <;> simp [Option.orElse]
  · by_cases h2 : k = "shortcut"
    · subst h2
      simp [spreadMerge, DEFAULT_SETTINGS, List.lookup]
      cases kvs.lookup "shortcut" <;> simp [Option.orElse]
    · have hb1 : (k == "apiKey") = false := beq_eq_false_iff_ne.mpr h1
      have hb2 : (k == "shortcut") = false := beq_eq_false_iff_ne.mpr h2
      have hnone := lookup_defaults_none k h1 h2
      have hfil := lookup_filter_fresh DEFAULT_SETTINGS kvs k hnone
      simp [spreadMerge, List.lookup, hb1, hb2, hnone] at hfil ⊢
      exact hfil

/-- Any branch of `stopRecordingAndTranscribe` taken from a recording
state returns with the `isRecording` guard cleared. -/
theorem stop_clears_guard (st : AppState) (env : Env) (h : st.isRecording = true) :
    (stopRecordingAndTranscribe st env).1 = { st with isRecording := false } := by
  unfold stopRecordingAndTranscribe
  rcases henv : env.stopResult with e | clip <;>
    simp [h, henv]
  by_cases hsz : clip.size = 0 <;> simp [hsz]
  rcases ht : env.transcribeResult with e | text <;> simp [ht]
  by_cases htext : text = "" <;> simp [htext]
  rcases hw : env.writeTextResult with e | u <;> simp [hw]
  rcases hp : env.pasteResult with e | u <;> simp [hp]

/-- The capture listener ignores a leading run of modifier-only keydown
events. -/
theorem captureShortcut_append_modifiers (pre l : List KeyEvent)
    (hpre : ∀ x ∈ pre, modifierKeyNames.contains x.key = true) :
    captureShortcut (pre ++ l) = captureShortcut l := by
  induction pre with
  | nil => rfl
  | cons x xs ih =>
    have hx : x.key ∈ modifierKeyNames := by simpa using hpre x (List.mem_cons_self x xs)
    have ih2 := ih fun y hy => hpre y (List.mem_cons_of_mem x hy)
    simp [captureShortcut, handleKeyDown, hx, ih2]

/-! ### Claim theorems -/

/-- C1: for every non-empty audio clip, when the transcription client
returns `"hello world"`, the press/release cycle displays the statuses
`recording`, `processing`, `transcribing`, `success` in that order,
writes exactly `"hello world"` to the clipboard, and invokes the paste
action exactly once. -/
theorem hello_world_pipeline (st : AppState) (clip : Clip)
    (h0 : st.isRecording = false) (hsz : clip.size ≠ 0) :
    statusesOf (pressReleaseCycle st
        ⟨Except.ok (), Except.ok clip, Except.ok "hello world", Except.ok (), Except.ok ()⟩).2 =
      [Status.recording, Status.processing, Status.transcribing, Status.success] ∧
    clipboardWrites (pressReleaseCycle st
        ⟨Except.ok (), Except.ok clip, Except.ok "hello world", Except.ok (), Except.ok ()⟩).2 =
      ["hello world"] ∧
    pasteCount (pressReleaseCycle st
        ⟨Except.ok (), Except.ok clip, Except.ok "hello world", Except.ok (), Except.ok ()⟩).2 = 1 := by
  unfold pressReleaseCycle startRecording stopRecordingAndTranscribe
  simp [h0, hsz, statusesOf, clipboardWrites, pasteCount]

/-- Witness for C1 at a concrete idle state and a 3-byte clip. -/
theorem hello_world_pipeline_witness :
    statusesOf (pressReleaseCycle ⟨false, "key"⟩
        ⟨Except.ok (), Except.ok ⟨3, "abc"⟩, Except.ok "hello world", Except.ok (), Except.ok ()⟩).2 =
      [Status.recording, Status.processing, Status.transcribing, Status.success] ∧
    clipboardWrites (pressReleaseCycle ⟨false, "key"⟩
        ⟨Except.ok (), Except.ok ⟨3, "abc"⟩, Except.ok "hello world", Except.ok (), Except.ok ()⟩).2 =
      ["hello world"] ∧
    pasteCount (pressReleaseCycle ⟨false, "key"⟩
        ⟨Except.ok (), Except.ok ⟨3, "abc"⟩, Except.ok "hello world", Except.ok (), Except.ok ()⟩).2 = 1 :=
  hello_world_pipeline ⟨false, "key"⟩ ⟨3, "abc"⟩ rfl (by decide)

/-- C2 counterexample: on a zero-length clip the displayed status
sequence of the cycle is `recording`, `processing`, `idle` — it is not
the direct `recording`, `idle` sequence the claim states, because
`updateStatus('processing')` runs before the empty-clip check. -/
theorem empty_clip_not_direct_to_idle_cex :
    ¬ statusesOf (pressReleaseCycle ⟨false, "k"⟩
        ⟨Except.ok (), Except.ok ⟨0, ""⟩, Except.ok "x", Except.ok (), Except.ok ()⟩).2 =
      [Status.recording, Status.idle] ∧
    statusesOf (pressReleaseCycle ⟨false, "k"⟩
        ⟨Except.ok (), Except.ok ⟨0, ""⟩, Except.ok "x", Except.ok (), Except.ok ()⟩).2 =
      [Status.recording, Status.processing, Status.idle] :=
  ⟨by decide, by decide⟩

/-- C2 (amended): for every recording whose clip has zero-length
payload, the cycle transitions `recording → processing → idle` (a
transient `processing` status is shown while the recorder is stopped),
and the transcription client is never invoked. -/
theorem empty_clip_through_processing_to_idle (st : AppState) (env : Env) (clip : Clip)
    (h0 : st.isRecording = false) (hstart : env.startResult = Except.ok ())
    (hstop : env.stopResult = Except.ok clip) (hsz : clip.size = 0) :
    statusesOf (pressReleaseCycle st env).2 =
      [Status.recording, Status.processing, Status.idle] ∧
    transcribeCalls (pressReleaseCycle st env).2 = 0 := by
  unfold pressReleaseCycle startRecording stopRecordingAndTranscribe
  simp [h0, hstart, hstop, hsz, statusesOf, transcribeCalls]

/-- Witness for the amended C2 at a concrete empty clip. -/
theorem empty_clip_through_processing_to_idle_witness :
    statusesOf (pressReleaseCycle ⟨false, "k"⟩
        ⟨Except.ok (), Except.ok ⟨0, ""⟩, Except.ok "x", Except.ok (), Except.ok ()⟩).2 =
      [Status.recording, Status.processing, Status.idle] ∧
    transcribeCalls (pressReleaseCycle ⟨false, "k"⟩
        ⟨Except.ok (), Except.ok ⟨0, ""⟩, Except.ok "x", Except.ok (), Except.ok ()⟩).2 = 0 :=
  empty_clip_through_processing_to_idle ⟨false, "k"⟩
    ⟨Except.ok (), Except.ok ⟨0, ""⟩, Except.ok "x", Except.ok (), Except.ok ()⟩
    ⟨0, ""⟩ rfl rfl rfl rfl

/-- C3: when the transcription call fails with reason `e`, the cycle
displays `recording`, `processing`, `transcribing`, `error`, the error
status carries the message `Error: e` (which contains the failure
reason), the clipboard is never written, paste is never invoked, a
reset to `idle` is scheduled after the fixed 3000 ms delay, and the
settled status is `idle`. -/
theorem transcription_failure_flow (st : AppState) (clip : Clip) (e : String)
    (h0 : st.isRecording = false) (hsz : clip.size ≠ 0) :
    statusesOf (pressReleaseCycle st
        ⟨Except.ok (), Except.ok clip, Except.error e, Except.ok (), Except.ok ()⟩).2 =
      [Status.recording, Status.processing, Status.transcribing, Status.error] ∧
    (∃ m, Event.updateStatus Status.error (some m) ∈ (pressReleaseCycle st
        ⟨Except.ok (), Except.ok clip, Except.error e, Except.ok (), Except.ok ()⟩).2 ∧
      m = "Error: " ++ e) ∧
    clipboardWrites (pressReleaseCycle st
        ⟨Except.ok (), Except.ok clip, Except.error e, Except.ok (), Except.ok ()⟩).2 = [] ∧
    pasteCount (pressReleaseCycle st
        ⟨Except.ok (), Except.ok clip, Except.error e, Except.ok (), Except.ok ()⟩).2 = 0 ∧
    Event.deferIdle 3000 ∈ (pressReleaseCycle st
        ⟨Except.ok (), Except.ok clip, Except.error e, Except.ok (), Except.ok ()⟩).2 ∧
    settledStatus Status.idle (pressReleaseCycle st
        ⟨Except.ok (), Except.ok clip, Except.error e, Except.ok (), Except.ok ()⟩).2 =
      Status.idle := by
  unfold pressReleaseCycle startRecording stopRecordingAndTranscribe
  refine ⟨?_, ⟨"Error: " ++ e, ?_, rfl⟩, ?_, ?_, ?_, ?_⟩ <;>
    simp [h0, hsz, statusesOf, clipboardWrites, pasteCount, settledStatus, hasDeferIdle]

/-- Witness for C3 with the failure reason `RateLimitError`. -/
theorem transcription_failure_flow_witness :
    statusesOf (pressReleaseCycle ⟨false, "k"⟩
        ⟨Except.ok (), Except.ok ⟨2, "qq"⟩, Except.error "RateLimitError", Except.ok (), Except.ok ()⟩).2 =
      [Status.recording, Status.processing, Status.transcribing, Status.error] ∧
    (∃ m, Event.updateStatus Status.error (some m) ∈ (pressReleaseCycle ⟨false, "k"⟩
        ⟨Except.ok (), Except.ok ⟨2, "qq"⟩, Except.error "RateLimitError", Except.ok (), Except.ok ()⟩).2 ∧
      m = "Error: " ++ "RateLimitError") ∧
    clipboardWrites (pressReleaseCycle ⟨false, "k"⟩
        ⟨Except.ok (), Except.ok ⟨2, "qq"⟩, Except.error "RateLimitError", Except.ok (), Except.ok ()⟩).2 = [] ∧
    pasteCount (pressReleaseCycle ⟨false, "k"⟩
        ⟨Except.ok (), Except.ok ⟨2, "qq"⟩, Except.error "RateLimitError", Except.ok (), Except.ok ()⟩).2 = 0 ∧
    Event.deferIdle 3000 ∈ (pressReleaseCycle ⟨false, "k"⟩
        ⟨Except.ok (), Except.ok ⟨2, "qq"⟩, Except.error "RateLimitError", Except.ok (), Except.ok ()⟩).2 ∧
    settledStatus Status.idle (pressReleaseCycle ⟨false, "k"⟩
        ⟨Except.ok (), Except.ok ⟨2, "qq"⟩, Except.error "RateLimitError", Except.ok (), Except.ok ()⟩).2 =
      Status.idle :=
  transcription_failure_flow ⟨false, "k"⟩ ⟨2, "qq"⟩ "RateLimitError" rfl (by decide)

/-- C4 counterexample: saving a settings object that carries the
non-schema key `theme` and loading it back yields the `theme` field
unchanged — keys absent from the Settings schema are preserved by the
save/load round trip, not dropped, because `JSON.stringify` serializes
every field and the defaults spread keeps parsed extras. -/
theorem unknown_key_survives_roundtrip_cex :
    (loadSettings (saveSettings [("apiKey", "k"), ("shortcut", "S"), ("theme", "dark")])).lookup
        "theme" = some "dark" ∧
    ¬ (loadSettings (saveSettings [("apiKey", "k"), ("shortcut", "S"), ("theme", "dark")])).lookup
        "theme" = none :=
  ⟨by decide, by decide⟩

/-- C4 (amended): for every settings object holding the schema fields
`apiKey` and `shortcut` in schema order followed by any fields with
non-schema keys, `saveSettings` followed by `loadSettings` yields an
equal object; in particular the round trip is the identity on valid
Settings objects, and keys absent from the schema are preserved rather
than dropped. -/
theorem settings_roundtrip_preserves_fields (a s : String) (extra : Obj)
    (hextra : ∀ kv ∈ extra, kv.1 ≠ "apiKey" ∧ kv.1 ≠ "shortcut") :
    loadSettings (saveSettings ([("apiKey", a), ("shortcut", s)] ++ extra)) =
      [("apiKey", a), ("shortcut", s)] ++ extra := by
  simp [loadSettings, saveSettings, spreadMerge, DEFAULT_SETTINGS, List.lookup,
        List.filter_cons]
  intro k1 v hm
  have := lookup_defaults_none k1 (hextra (k1, v) hm).1 (hextra (k1, v) hm).2
  simpa [DEFAULT_SETTINGS, List.lookup] using this

/-- Witness for the amended C4: a plain Settings object round-trips
unchanged, and so does one extended with a `theme` field. -/
theorem settings_roundtrip_preserves_fields_witness :
    loadSettings (saveSettings ([("apiKey", "k"), ("shortcut", "S")] ++ [])) =
      [("apiKey", "k"), ("shortcut", "S")] ++ [] ∧
    loadSettings (saveSettings ([("apiKey", "k"), ("shortcut", "S")] ++ [("theme", "dark")])) =
      [("apiKey", "k"), ("shortcut", "S")] ++ [("theme", "dark")] :=
  ⟨settings_roundtrip_preserves_fields "k" "S" [] (by decide),
   settings_roundtrip_preserves_fields "k" "S" [("theme", "dark")] (by decide)⟩

/-- C5: loading a missing or corrupt settings file yields exactly the
default Settings value (`apiKey` empty, `shortcut`
`CommandOrControl+Shift+Space`) without surfacing an error
(`loadSettings` is total in the embedding, the parse failure being
swallowed), and loading a file that parses yields, field by field, the
parsed value when present and the default otherwise. -/
theorem load_missing_or_corrupt_defaults :
    loadSettings FileContent.missing =
      [("apiKey", ""), ("shortcut", "CommandOrControl+Shift+Space")] ∧
    loadSettings FileContent.corrupt =
      [("apiKey", ""), ("shortcut", "CommandOrControl+Shift+Space")] ∧
    ∀ (kvs : Obj) (k : String),
      (loadSettings (FileContent.obj kvs)).lookup k =
        ((kvs.lookup k).orElse fun _ => DEFAULT_SETTINGS.lookup k) :=
  ⟨rfl, rfl, fun kvs k => lookup_spreadMerge_defaults kvs k⟩

/-- C6: registering a new hotkey descriptor while a previous one is
recorded leaves exactly one active OS binding — the new one — and
records it as current, also when unregistering the old descriptor
throws because the OS no longer holds it (the failure is swallowed).
The hypothesis states the registrar invariant: the OS holds either no
binding for the app or exactly the recorded one. -/
theorem rebind_exactly_one_binding (st : HotkeyState) (s : String)
    (h : st.bindings = [] ∨ st.bindings = st.currentShortcut.toList) :
    (registerShortcut st s true).1.bindings = [s] ∧
    (registerShortcut st s true).1.currentShortcut = some s := by
  rcases h with h | h
  · rcases hc : st.currentShortcut with _ | old <;>
      simp [registerShortcut, unregisterOS, h, hc]
  · rcases hc : st.currentShortcut with _ | old
    · simp only [hc, Option.toList] at h
      simp [registerShortcut, h, hc]
    · simp only [hc, Option.toList] at h
      simp [registerShortcut, unregisterOS, h, hc]

/-- Witness for C6: rebinding from a state whose recorded descriptor
`A` is no longer held by the OS (so unregistering it throws) still ends
with `B` as the single active binding. -/
theorem rebind_exactly_one_binding_witness :
    (registerShortcut ⟨some "A", []⟩ "B" true).1.bindings = ["B"] ∧
    (registerShortcut ⟨some "A", []⟩ "B" true).1.currentShortcut = some "B" :=
  rebind_exactly_one_binding ⟨some "A", []⟩ "B" (Or.inl rfl)

/-- C7: a start-recording request while the `isRecording` guard is set
is a no-op: the state is unchanged, no status is displayed, and the
recorder is not started (no second audio stream is opened). -/
theorem second_start_noop (st : AppState) (env : Env) (h : st.isRecording = true) :
    (startRecording st env).1 = st ∧
    statusesOf (startRecording st env).2 = [] ∧
    Event.recorderStart ∉ (startRecording st env).2 := by
  unfold startRecording
  simp [h, statusesOf]

/-- Witness for C7 at a concrete recording state. -/
theorem second_start_noop_witness :
    (startRecording ⟨true, "k"⟩
        ⟨Except.ok (), Except.ok ⟨1, "a"⟩, Except.ok "t", Except.ok (), Except.ok ()⟩).1 =
      ⟨true, "k"⟩ ∧
    statusesOf (startRecording ⟨true, "k"⟩
        ⟨Except.ok (), Except.ok ⟨1, "a"⟩, Except.ok "t", Except.ok (), Except.ok ()⟩).2 = [] ∧
    Event.recorderStart ∉ (startRecording ⟨true, "k"⟩
        ⟨Except.ok (), Except.ok ⟨1, "a"⟩, Except.ok "t", Except.ok (), Except.ok ()⟩).2 :=
  second_start_noop ⟨true, "k"⟩
    ⟨Except.ok (), Except.ok ⟨1, "a"⟩, Except.ok "t", Except.ok (), Except.ok ()⟩ rfl

/-- C8: over a key-capture interaction consisting of any run of
modifier-only keydown events followed by a first non-modifier keydown,
the capture terminates at that event and produces a `+`-joined
descriptor whose tokens are the pressed modifiers first, in the order
`CommandOrControl`, `Alt`, `Shift`, followed by exactly one key token,
namely the canonical name from the control-key map when the key is a
known control key and the uppercased key otherwise. -/
theorem capture_descriptor_format (pre : List KeyEvent) (e : KeyEvent) (rest : List KeyEvent)
    (hpre : ∀ x ∈ pre, modifierKeyNames.contains x.key = true)
    (he : modifierKeyNames.contains e.key = false) :
    ∃ mods keyTok,
      captureShortcut (pre ++ e :: rest) =
        some (String.intercalate "+" (mods ++ [keyTok])) ∧
      mods.Sublist ["CommandOrControl", "Alt", "Shift"] ∧
      (("CommandOrControl" ∈ mods) ↔ (e.metaKey || e.ctrlKey) = true) ∧
      (("Alt" ∈ mods) ↔ e.altKey = true) ∧
      (("Shift" ∈ mods) ↔ e.shiftKey = true) ∧
      keyTok = (keyMap.lookup e.key).getD e.key.toUpper := by
  refine ⟨modifierParts e, (keyMap.lookup e.key).getD e.key.toUpper, ?_, ?_, ?_, ?_, ?_, rfl⟩
  · have he2 : e.key ∉ modifierKeyNames := by simpa using he
    rw [captureShortcut_append_modifiers pre (e :: rest) hpre]
    simp [captureShortcut, handleKeyDown, he2]
  all_goals
    cases hm : (e.metaKey || e.ctrlKey) <;> cases ha : e.altKey <;> cases hs : e.shiftKey <;>
      simp [modifierParts, hm, ha, hs]

/-- Witness for C8: a shift-only keydown followed by meta+shift+space
captures the descriptor with the space key mapped to `SPACE`. -/
theorem capture_descriptor_format_witness :
    ∃ mods keyTok,
      captureShortcut ([⟨false, false, false, true, "Shift"⟩] ++
          ⟨true, false, false, true, " "⟩ :: []) =
        some (String.intercalate "+" (mods ++ [keyTok])) ∧
      mods.Sublist ["CommandOrControl", "Alt", "Shift"] ∧
      (("CommandOrControl" ∈ mods) ↔
        ((⟨true, false, false, true, " "⟩ : KeyEvent).metaKey ||
          (⟨true, false, false, true, " "⟩ : KeyEvent).ctrlKey) = true) ∧
      (("Alt" ∈ mods) ↔ (⟨true, false, false, true, " "⟩ : KeyEvent).altKey = true) ∧
      (("Shift" ∈ mods) ↔ (⟨true, false, false, true, " "⟩ : KeyEvent).shiftKey = true) ∧
      keyTok = (keyMap.lookup (⟨true, false, false, true, " "⟩ : KeyEvent).key).getD
        (⟨true, false, false, true, " "⟩ : KeyEvent).key.toUpper :=
  capture_descriptor_format [⟨false, false, false, true, "Shift"⟩]
    ⟨true, false, false, true, " "⟩ [] (by decide) (by decide)

/-- C9: every terminal outcome of a recording cycle leaves the
`isRecording` guard false: a release handled from a recording state
clears it on every branch (empty clip, empty transcription text,
success, transcription or clipboard or paste error), and a failed start
clears it as well, so a subsequent press can begin a new recording. -/
theorem terminal_outcomes_clear_guard (st : AppState) (env : Env) (h : st.isRecording = true) :
    (stopRecordingAndTranscribe st env).1.isRecording = false ∧
    (∀ st2 msg, st2.isRecording = false → env.startResult = Except.error msg →
      (startRecording st2 env).1.isRecording = false) := by
  constructor
  · rw [stop_clears_guard st env h]
  · intro st2 msg h2 hmsg
    unfold startRecording
    simp [h2, hmsg]

/-- Witness for C9 in an environment whose recorder fails both to start
and to stop. -/
theorem terminal_outcomes_clear_guard_witness :
    (stopRecordingAndTranscribe ⟨true, "k"⟩
        ⟨Except.error "boom", Except.error "mic lost", Except.ok "t", Except.ok (), Except.ok ()⟩).1.isRecording =
      false ∧
    (∀ st2 msg, st2.isRecording = false →
      (⟨Except.error "boom", Except.error "mic lost", Except.ok "t", Except.ok (), Except.ok ()⟩ : Env).startResult =
        Except.error msg →
      (startRecording st2
          ⟨Except.error "boom", Except.error "mic lost", Except.ok "t", Except.ok (), Except.ok ()⟩).1.isRecording =
        false) :=
  terminal_outcomes_clear_guard ⟨true, "k"⟩
    ⟨Except.error "boom", Except.error "mic lost", Except.ok "t", Except.ok (), Except.ok ()⟩ rfl

/-- C10: for every non-empty clip whose transcription returns the empty
string, the cycle displays `recording`, `processing`, `transcribing`
and then sets the status back to `idle`, never writing the clipboard
and never invoking paste. -/
theorem empty_text_skips_clipboard_and_paste (st : AppState) (clip : Clip)
    (h0 : st.isRecording = false) (hsz : clip.size ≠ 0) :
    statusesOf (pressReleaseCycle st
        ⟨Except.ok (), Except.ok clip, Except.ok "", Except.ok (), Except.ok ()⟩).2 =
      [Status.recording, Status.processing, Status.transcribing, Status.idle] ∧
    clipboardWrites (pressReleaseCycle st
        ⟨Except.ok (), Except.ok clip, Except.ok "", Except.ok (), Except.ok ()⟩).2 = [] ∧
    pasteCount (pressReleaseCycle st
        ⟨Except.ok (), Except.ok clip, Except.ok "", Except.ok (), Except.ok ()⟩).2 = 0 := by
  unfold pressReleaseCycle startRecording stopRecordingAndTranscribe
  simp [h0, hsz, statusesOf, clipboardWrites, pasteCount]

/-- Witness for C10 at a concrete 2-byte clip. -/
theorem empty_text_skips_clipboard_and_paste_witness :
    statusesOf (pressReleaseCycle ⟨false, "k"⟩
        ⟨Except.ok (), Except.ok ⟨2, "zz"⟩, Except.ok "", Except.ok (), Except.ok ()⟩).2 =
      [Status.recording, Status.processing, Status.transcribing, Status.idle] ∧
    clipboardWrites (pressReleaseCycle ⟨false, "k"⟩
        ⟨Except.ok (), Except.ok ⟨2, "zz"⟩, Except.ok "", Except.ok (), Except.ok ()⟩).2 = [] ∧
    pasteCount (pressReleaseCycle ⟨false, "k"⟩
        ⟨Except.ok (), Except.ok ⟨2, "zz"⟩, Except.ok "", Except.ok (), Except.ok ()⟩).2 = 0 :=
  empty_text_skips_clipboard_and_paste ⟨false, "k"⟩ ⟨2, "zz"⟩ rfl (by decide)

end AquaVoice
